import Mathlib

/-!
Verification of the loyalty-points core of the modular Flask application
(domain_models.py, repositories.py, services.py).

Modelling conventions:
* Python `date` values form a total order; they are embedded as `Int`
  (days on a linear timeline).  Nullable dates are `Option Int`.
* SQL `Numeric(10,2)` prices (Python `Decimal` with two fractional
  digits) are embedded exactly as an integer number of cents, so
  `price * points_per_dollar` is `(cents * ppd) / 100` with exact
  rational value, and Python `int(...)` is truncation toward zero,
  i.e. `Int.tdiv (cents * ppd) 100`.
* Python `int` is `Int` (unbounded, signed).
* Optional/nullable values are `Option`; Python truthiness of an
  `Optional[int]`/`Decimal` is `≠ none` and `≠ 0`.
* The database session is an explicit record of row lists (`DB`);
  repository methods read it and return updated copies.  A Python
  `AttributeError` escaping a repository is `Except.error`.
* Object back-references (`PointEarningRule.category`,
  `LoyaltyAccount.customer`, in-memory transaction lists) are omitted:
  they are never read by the verified operations and would create
  reference cycles that a value embedding cannot express.
-/

/-- Days on a linear timeline; Python `datetime.date` is totally ordered. -/
abbrev PyDate := Int

/-- domain_models.PointEarningRule (the `category` back-reference is
omitted; no verified operation reads it). -/
structure PointEarningRule where
  id : Int
  points_per_dollar : Option Int
  start_date : Option PyDate
  end_date : Option PyDate
deriving Repr, DecidableEq

/-- domain_models.Category. -/
structure Category where
  id : Option Int
  name : Option String
  point_earning_rules : List PointEarningRule
deriving Repr, DecidableEq

/-- domain_models.Product.  `price` is in cents. -/
structure Product where
  id : Int
  name : Option String
  price : Option Int
  category : Option Category
  category_id : Option Int
  image_url : Option String
deriving Repr, DecidableEq

/-- domain_models.Customer (the `loyalty_account` back-reference is
omitted; no verified operation reads it). -/
structure Customer where
  id : Int
  name : Option String
  email : Option String
deriving Repr, DecidableEq

/-- domain_models.LoyaltyAccount (the `customer` back-reference and the
in-memory `transactions` list are omitted; the settlement flow reads
only `id` and `points`). -/
structure LoyaltyAccount where
  id : Int
  points : Int
deriving Repr, DecidableEq

/-- domain_models.LoyaltyAccount.add_points. -/
def LoyaltyAccount.add_points (a : LoyaltyAccount) (points : Int) :
    LoyaltyAccount :=
  { a with points := a.points + points }

/-- domain_models.PointTransaction. -/
structure PointTransaction where
  loyalty_account : LoyaltyAccount
  product : Product
  points_earned : Int
  transaction_date : PyDate
deriving Repr, DecidableEq

/-- The test in the loop body of Category.get_active_rule:
`(rule.start_date is None or rule.start_date <= date) and
 (rule.end_date is None or date <= rule.end_date)`. -/
def ruleActiveOn (rule : PointEarningRule) (d : PyDate) : Bool :=
  (match rule.start_date with
   | none => true
   | some s => decide (s ≤ d)) &&
  (match rule.end_date with
   | none => true
   | some e => decide (d ≤ e))

/-- The `for` loop of Category.get_active_rule: first rule in stored
order that passes `ruleActiveOn`, else `None`. -/
def findActiveRule (d : PyDate) : List PointEarningRule →
    Option PointEarningRule
  | [] => none
  | r :: rs => if ruleActiveOn r d then some r else findActiveRule d rs

/-- domain_models.Category.get_active_rule. -/
def Category.get_active_rule (c : Category) (d : PyDate) :
    Option PointEarningRule :=
  findActiveRule d c.point_earning_rules

/-- domain_models.PointCalculator.calculate_points.
Python truthiness: `rule` is truthy iff present, `rule.points_per_dollar`
iff present and nonzero, `product.price` (a Decimal) iff present and
nonzero.  `int(product.price * rule.points_per_dollar)` truncates the
exact decimal product toward zero, which on cents is
`Int.tdiv (cents * ppd) 100`. -/
def PointCalculator.calculate_points (product : Product) (d : PyDate) :
    Int :=
  match product.category with
  | none => 0
  | some cat =>
    match cat.get_active_rule d with
    | none => 0
    | some rule =>
      match rule.points_per_dollar, product.price with
      | some ppd, some cents =>
        if ppd ≠ 0 ∧ cents ≠ 0 then Int.tdiv (cents * ppd) 100 else 0
      | some _, none => 0
      | none, _ => 0

example :
    PointCalculator.calculate_points
      { id := 2
        name := some "Science Fiction Book"
        price := some 1599
        category := some
          { id := some 2
            name := some "Books"
            point_earning_rules :=
              [{ id := 3
                 points_per_dollar := some 1
                 start_date := some 0
                 end_date := some 365 }] }
        category_id := some 2
        image_url := none } 10 = 15 := by decide

/-! ## Database rows (models.py) and the session state -/

/-- models.Customers row. -/
structure CustomerRow where
  id : Int
  name : Option String
  email : Option String
deriving Repr, DecidableEq

/-- models.LoyaltyAccounts row. -/
structure AccountRow where
  id : Int
  customer_id : Int
  points : Int
deriving Repr, DecidableEq

/-- models.Products row (`price` in cents). -/
structure ProductRow where
  id : Int
  name : Option String
  price : Option Int
  category_id : Option Int
  image_url : Option String
deriving Repr, DecidableEq

/-- models.Categories row. -/
structure CategoryRow where
  id : Int
  name : Option String
deriving Repr, DecidableEq

/-- models.PointEarningRules row. -/
structure RuleRow where
  id : Int
  category_id : Option Int
  points_per_dollar : Option Int
  start_date : Option PyDate
  end_date : Option PyDate
deriving Repr, DecidableEq

/-- models.PointTransactions row (the autoincrement `id` column is
omitted: nothing reads it). -/
structure TransactionRow where
  loyalty_account_id : Int
  product_id : Int
  points_earned : Int
  transaction_date : PyDate
deriving Repr, DecidableEq

/-- The SQLAlchemy session: the tables, in rowid (insertion) order. -/
structure DB where
  customers : List CustomerRow
  accounts : List AccountRow
  products : List ProductRow
  categories : List CategoryRow
  rules : List RuleRow
  transactions : List TransactionRow
deriving Repr, DecidableEq

/-! ## Repositories (repositories.py) -/

/-- repositories.CustomerRepository.get_by_id:
`session.query(Customers).get(customer_id)` and wrap into the domain
`Customer`. -/
def CustomerRepository.get_by_id (db : DB) (customer_id : Int) :
    Option Customer :=
  match db.customers.find? (fun r => r.id == customer_id) with
  | some r => some { id := r.id, name := r.name, email := r.email }
  | none => none

/-- repositories.LoyaltyAccountRepository.get_by_customer_id:
`query(LoyaltyAccounts).filter_by(customer_id=customer_id).first()`.
The wrapped domain account carries `int(account_model.id)` and
`int(account_model.points)`. -/
def LoyaltyAccountRepository.get_by_customer_id (db : DB)
    (customer_id : Int) : Option LoyaltyAccount :=
  match db.accounts.find? (fun r => r.customer_id == customer_id) with
  | some r => some { id := r.id, points := r.points }
  | none => none

/-- repositories.LoyaltyAccountRepository.update:
`query(LoyaltyAccounts).get(loyalty_account.id)`; if the row exists,
overwrite its `points` and commit; if it does not, do nothing
(no write, no error).  `id` is the primary key, so at most one row
matches. -/
def LoyaltyAccountRepository.update (db : DB)
    (loyalty_account : LoyaltyAccount) : DB :=
  match db.accounts.find? (fun r => r.id == loyalty_account.id) with
  | some _ =>
    { db with
      accounts := db.accounts.map (fun r =>
        if r.id == loyalty_account.id then
          { r with points := loyalty_account.points }
        else r) }
  | none => db

/-- The ORM relationship `Products.category`: resolve the row's
`category_id` foreign key against the Categories table. -/
def productCategoryRel (db : DB) (r : ProductRow) : Option CategoryRow :=
  r.category_id.bind (fun cid => db.categories.find? (fun c => c.id == cid))

/-- repositories.ProductRepository.get_by_id:
`query(Products).get(product_id)`; absent row gives `None`.  On a found
row the code evaluates `product_model.category.name` unconditionally,
so when the relationship is unresolvable (NULL `category_id`, or no
Categories row for it) the attribute access on `None` raises
`AttributeError`, which escapes the repository. -/
def ProductRepository.get_by_id (db : DB) (product_id : Int) :
    Except String (Option Product) :=
  match db.products.find? (fun r => r.id == product_id) with
  | none => .ok none
  | some r =>
    match productCategoryRel db r with
    | none => .error "AttributeError"
    | some catRow =>
      .ok (some
        { id := r.id
          name := r.name
          price := r.price
          category := some
            { id := r.category_id
              name := catRow.name
              point_earning_rules := [] }
          category_id := r.category_id
          image_url := r.image_url })

/-- `ORDER BY start_date DESC ... first()` on SQLite: NULL start dates
sort below every date, and rows with equal keys keep rowid order, so
the result is the first row holding the maximal `start_date` (with
`none` as the smallest key). -/
def startKeyLt : Option PyDate → Option PyDate → Bool
  | none, none => false
  | none, some _ => true
  | some _, none => false
  | some a, some b => decide (a < b)

/-- First row with the maximal `start_date` key among `rows`. -/
def latestStartRule (rows : List RuleRow) : Option RuleRow :=
  rows.foldl (fun best r =>
    match best with
    | none => some r
    | some b => if startKeyLt b.start_date r.start_date then some r else best)
    none

/-- repositories.CategoryRepository.get_by_id:
`query(Categories).get(category_id)` (a `None` id matches no row); on a
found row, attach at most one rule: the PointEarningRules row for this
category with the latest start date
(`order_by(PointEarningRules.start_date.desc()).first()`). -/
def CategoryRepository.get_by_id (db : DB) (category_id : Option Int) :
    Option Category :=
  match category_id with
  | none => none
  | some cid =>
    match db.categories.find? (fun c => c.id == cid) with
    | none => none
    | some c =>
      let rules :=
        match latestStartRule
            (db.rules.filter (fun r => r.category_id == some c.id)) with
        | some rr =>
          [{ id := rr.id
             points_per_dollar := rr.points_per_dollar
             start_date := rr.start_date
             end_date := rr.end_date : PointEarningRule }]
        | none => []
      some { id := some c.id, name := c.name, point_earning_rules := rules }

/-- repositories.PointTransactionRepository.create: insert a
PointTransactions row built from the domain transaction and commit. -/
def PointTransactionRepository.create (db : DB)
    (transaction : PointTransaction) : DB :=
  { db with
    transactions := db.transactions ++
      [{ loyalty_account_id := transaction.loyalty_account.id
         product_id := transaction.product.id
         points_earned := transaction.points_earned
         transaction_date := transaction.transaction_date }] }

/-! ## Service (services.py) -/

/-- One persistence-gateway write invocation, recorded in call order.
`createTransaction` is PointTransactionRepository.create,
`updateBalance` is LoyaltyAccountRepository.update. -/
inductive GatewayEvent where
  | createTransaction (account_id product_id points : Int) (d : PyDate)
  | updateBalance (account_id points : Int)
deriving Repr, DecidableEq

/-- Whether an event is an account-balance update invocation. -/
def GatewayEvent.isBalanceUpdate : GatewayEvent → Bool
  | .updateBalance _ _ => true
  | .createTransaction _ _ _ _ => false

/-- The state produced by LoyaltyService._process_products: the four
returned values, the mutated in-memory account, the session after the
per-product transaction inserts, and the write invocations made. -/
structure ProcessResult where
  total_points_earned : Int
  invalid_products : List Int
  products_missing_category : List Int
  point_earning_rules_missing : List Int
  account : LoyaltyAccount
  db : DB
  events : List GatewayEvent
deriving Repr, DecidableEq

/-- LoyaltyService._create_transaction: build a PointTransaction dated
today and persist it via PointTransactionRepository.create. -/
def LoyaltyService.create_transaction (db : DB)
    (loyalty_account : LoyaltyAccount) (product : Product)
    (points_earned : Int) (today : PyDate) : DB :=
  PointTransactionRepository.create db
    { loyalty_account := loyalty_account
      product := product
      points_earned := points_earned
      transaction_date := today }

/-- LoyaltyService._process_products, with `date.today()` passed in as
`today`.  The loop walks `product_ids` in order; each iteration either
classifies the id into one of the three lists and continues, or
persists a transaction, adds the points to the in-memory account and
the running total.  An `AttributeError` escaping
ProductRepository.get_by_id aborts the whole call. -/
def LoyaltyService.process_products (db : DB)
    (loyalty_account : LoyaltyAccount) (product_ids : List Int)
    (today : PyDate) : Except String ProcessResult :=
  match product_ids with
  | [] =>
    .ok { total_points_earned := 0
          invalid_products := []
          products_missing_category := []
          point_earning_rules_missing := []
          account := loyalty_account
          db := db
          events := [] }
  | product_id :: rest =>
    match ProductRepository.get_by_id db product_id with
    | .error e => .error e
    | .ok none =>
      match LoyaltyService.process_products db loyalty_account rest today with
      | .error e => .error e
      | .ok r =>
        .ok { r with invalid_products := product_id :: r.invalid_products }
    | .ok (some product0) =>
      let product :=
        { product0 with
          category := CategoryRepository.get_by_id db product0.category_id }
      match product.category with
      | none =>
        match LoyaltyService.process_products db loyalty_account rest
            today with
        | .error e => .error e
        | .ok r =>
          .ok { r with
                products_missing_category :=
                  product_id :: r.products_missing_category }
      | some _ =>
        let points_earned := PointCalculator.calculate_points product today
        if points_earned == 0 then
          match LoyaltyService.process_products db loyalty_account rest
              today with
          | .error e => .error e
          | .ok r =>
            .ok { r with
                  point_earning_rules_missing :=
                    product_id :: r.point_earning_rules_missing }
        else
          let db1 := LoyaltyService.create_transaction db loyalty_account
            product points_earned today
          let account1 := loyalty_account.add_points points_earned
          match LoyaltyService.process_products db1 account1 rest today with
          | .error e => .error e
          | .ok r =>
            .ok { r with
                  total_points_earned :=
                    points_earned + r.total_points_earned
                  events :=
                    .createTransaction loyalty_account.id product.id
                      points_earned today :: r.events }

/-- The JSON body returned on a 200 settlement. -/
structure ResponseData where
  total_points_earned : Int
  invalid_products : List Int
  products_missing_category : List Int
  point_earning_rules_missing : List Int
deriving Repr, DecidableEq

/-- The (body, status) pair returned by process_checkout: the two 404
error bodies, or the 200 response. -/
inductive CheckoutOutcome where
  | customerNotFound
  | accountNotFound
  | settled (response : ResponseData)
deriving Repr, DecidableEq

/-- LoyaltyService.process_checkout, with `date.today()` passed in as
`today`.  Returns the outcome, the session after all writes, and the
list of gateway write invocations in call order. -/
def LoyaltyService.process_checkout (db : DB) (customer_id : Int)
    (product_ids : List Int) (today : PyDate) :
    Except String (CheckoutOutcome × DB × List GatewayEvent) :=
  match CustomerRepository.get_by_id db customer_id with
  | none => .ok (.customerNotFound, db, [])
  | some _ =>
    match LoyaltyAccountRepository.get_by_customer_id db customer_id with
    | none => .ok (.accountNotFound, db, [])
    | some loyalty_account =>
      match LoyaltyService.process_products db loyalty_account product_ids
          today with
      | .error e => .error e
      | .ok r =>
        .ok (.settled
              { total_points_earned := r.total_points_earned
                invalid_products := r.invalid_products
                products_missing_category := r.products_missing_category
                point_earning_rules_missing :=
                  r.point_earning_rules_missing },
             LoyaltyAccountRepository.update r.db r.account,
             r.events ++ [.updateBalance r.account.id r.account.points])

/-! ## Concrete fixtures used by counterexamples and witnesses -/

/-- Seed-style session: customer 1 with account 1 (100 points); product
102 has a NULL `category_id`; product 103 costs 1200.00 in category 10,
whose only rule gives 2 points per dollar with an unbounded window.
Product id 101 does not exist. -/
def dbMain : DB :=
  { customers := [{ id := 1, name := some "John Doe", email := none }]
    accounts := [{ id := 1, customer_id := 1, points := 100 }]
    products :=
      [{ id := 102, name := some "Science Fiction Book", price := some 1500
         category_id := none, image_url := none },
       { id := 103, name := some "Laptop", price := some 120000
         category_id := some 10, image_url := none }]
    categories := [{ id := 10, name := some "Electronics" }]
    rules :=
      [{ id := 1, category_id := some 10, points_per_dollar := some 2
         start_date := none, end_date := none }]
    transactions := [] }

/-- `dbMain` after one settlement of product 103 (2400 points earned):
the balance row is 2500 and one transaction row exists. -/
def dbMainSettled : DB :=
  { dbMain with
    accounts := [{ id := 1, customer_id := 1, points := 2500 }]
    transactions :=
      [{ loyalty_account_id := 1, product_id := 103, points_earned := 2400
         transaction_date := 0 }] }

/-- Category 1 with two rules whose windows both contain day 6: rule 1
was inserted first (start 0), rule 2 later but with the later start
date 5. -/
def dbOverlap : DB :=
  { customers := [], accounts := [], products := []
    categories := [{ id := 1, name := some "Electronics" }]
    rules :=
      [{ id := 1, category_id := some 1, points_per_dollar := some 3
         start_date := some 0, end_date := some 10 },
       { id := 2, category_id := some 1, points_per_dollar := some 5
         start_date := some 5, end_date := some 10 }]
    transactions := [] }

/-- A 15.99 product whose category's only (always-active) rule has a
points-per-dollar of -1. -/
def bookNegRule : Product :=
  { id := 2, name := some "Science Fiction Book", price := some 1599
    category := some
      { id := some 2, name := some "Books"
        point_earning_rules :=
          [{ id := 3, points_per_dollar := some (-1)
             start_date := none, end_date := none }] }
    category_id := some 2, image_url := none }

/-- The same 15.99 product under a points-per-dollar of 1. -/
def bookPosRule : Product :=
  { id := 2, name := some "Science Fiction Book", price := some 1599
    category := some
      { id := some 2, name := some "Books"
        point_earning_rules :=
          [{ id := 3, points_per_dollar := some 1
             start_date := none, end_date := none }] }
    category_id := some 2, image_url := none }

/-- Customer 1 with a zero-balance account; product 5 costs 1.00 in
category 1, whose only (always-active) rule has points-per-dollar -1. -/
def dbNegMultiplier : DB :=
  { customers := [{ id := 1, name := none, email := none }]
    accounts := [{ id := 1, customer_id := 1, points := 0 }]
    products :=
      [{ id := 5, name := none, price := some 100, category_id := some 1
         image_url := none }]
    categories := [{ id := 1, name := none }]
    rules :=
      [{ id := 1, category_id := some 1, points_per_dollar := some (-1)
         start_date := none, end_date := none }]
    transactions := [] }

/-- `dbNegMultiplier` after settling product 5: the balance has been
driven to -1 and a -1-point transaction row exists. -/
def dbNegSettled : DB :=
  { dbNegMultiplier with
    accounts := [{ id := 1, customer_id := 1, points := -1 }]
    transactions :=
      [{ loyalty_account_id := 1, product_id := 5, points_earned := -1
         transaction_date := 0 }] }

/-- An entirely empty session. -/
def dbEmpty : DB :=
  { customers := [], accounts := [], products := [], categories := []
    rules := [], transactions := [] }

/-- Customer 1 exists but owns no loyalty account. -/
def dbNoAccount : DB :=
  { dbEmpty with customers := [{ id := 1, name := none, email := none }] }

/-! ## Definitions for the refinement claim on get_category -/

/-- The window test of §4.1 on a stored rule row (same predicate as
`ruleActiveOn`). -/
def rowActiveOn (r : RuleRow) (d : PyDate) : Bool :=
  (match r.start_date with
   | none => true
   | some s => decide (s ≤ d)) &&
  (match r.end_date with
   | none => true
   | some e => decide (d ≤ e))

/-- First stored rule row, in insertion order, whose window contains
the date. -/
def findActiveRuleRow (d : PyDate) : List RuleRow → Option RuleRow
  | [] => none
  | r :: rs => if rowActiveOn r d then some r else findActiveRuleRow d rs

/-- The §4.1 policy stated by the spec, applied end to end to the
stored data: scan all of the category's stored rules in insertion
order and take the first whose validity window contains the date.
This definition follows the spec's words; it is the standard the
repository path is compared against. -/
def specFirstInsertedActiveRule (db : DB) (category_id : Int)
    (d : PyDate) : Option RuleRow :=
  findActiveRuleRow d
    (db.rules.filter (fun r => r.category_id == some category_id))

/-- The rule checkout settlement actually uses for a product whose
category id is `category_id`: fetch the category through
CategoryRepository.get_by_id (as LoyaltyService._process_products
does), then resolve the active rule in memory (as
PointCalculator.calculate_points does). -/
def ruleUsedBySettlement (db : DB) (category_id : Int) (d : PyDate) :
    Option PointEarningRule :=
  match CategoryRepository.get_by_id db (some category_id) with
  | none => none
  | some c => c.get_active_rule d

/-- `dbMain` after the per-product phase of settling product 103: the
transaction row is inserted but the balance row is still 100. -/
def dbMainTx : DB :=
  { dbMain with
    transactions :=
      [{ loyalty_account_id := 1, product_id := 103, points_earned := 2400
         transaction_date := 0 }] }

/-- In-memory form of the first-inserted `dbOverlap` rule. -/
def ruleOv1 : PointEarningRule :=
  { id := 1, points_per_dollar := some 3, start_date := some 0
    end_date := some 10 }

/-- In-memory form of the later-inserted `dbOverlap` rule (later start
date). -/
def ruleOv2 : PointEarningRule :=
  { id := 2, points_per_dollar := some 5, start_date := some 5
    end_date := some 10 }

/-- An in-memory category carrying the two overlapping rules of
`dbOverlap` in insertion order. -/
def catOverlap : Category :=
  { id := some 1, name := some "Electronics"
    point_earning_rules := [ruleOv1, ruleOv2] }

/-! ## Helper lemmas -/

theorem findActiveRule_eq_none {d : PyDate} {l : List PointEarningRule} :
    findActiveRule d l = none ↔ ∀ r ∈ l, ruleActiveOn r d = false := by
  induction l with
  | nil => simp [findActiveRule]
  | cons x xs ih =>
    cases hx : ruleActiveOn x d with
    | true => simp [findActiveRule, hx]
    | false => simp [findActiveRule, hx, ih]

theorem findActiveRule_some {d : PyDate} {r : PointEarningRule} :
    ∀ {l : List PointEarningRule}, findActiveRule d l = some r →
    ruleActiveOn r d = true ∧
      ∃ l₁ l₂, l = l₁ ++ r :: l₂ ∧ ∀ r' ∈ l₁, ruleActiveOn r' d = false := by
  intro l
  induction l with
  | nil => intro h; simp [findActiveRule] at h
  | cons x xs ih =>
    intro h
    cases hx : ruleActiveOn x d with
    | true =>
      rw [findActiveRule, hx] at h
      simp only [if_pos] at h
      cases h
      exact ⟨hx, [], xs, rfl, by simp⟩
    | false =>
      rw [findActiveRule, hx] at h
      simp only [Bool.false_eq_true, if_false] at h
      obtain ⟨hact, l₁, l₂, heq, hall⟩ := ih h
      refine ⟨hact, x :: l₁, l₂, by simp [heq], ?_⟩
      intro r' hr'
      rcases List.mem_cons.mp hr' with rfl | hr'
      · exact hx
      · exact hall r' hr'

theorem findActiveRule_mem {d : PyDate} {r : PointEarningRule}
    {l : List PointEarningRule} (h : findActiveRule d l = some r) :
    r ∈ l := by
  obtain ⟨-, l₁, l₂, rfl, -⟩ := findActiveRule_some h
  simp

theorem latestStartRule_aux_mem :
    ∀ (rows : List RuleRow) (acc : Option RuleRow) (r : RuleRow),
    rows.foldl (fun best x =>
      match best with
      | none => some x
      | some b => if startKeyLt b.start_date x.start_date then some x
                  else best) acc = some r →
    r ∈ rows ∨ acc = some r := by
  intro rows
  induction rows with
  | nil => intro acc r h; exact Or.inr h
  | cons x xs ih =>
    intro acc r h
    rw [List.foldl_cons] at h
    rcases ih _ r h with hmem | hacc
    · exact Or.inl (List.mem_cons_of_mem _ hmem)
    · cases acc with
      | none =>
        cases hacc
        exact Or.inl (List.mem_cons_self x xs)
      | some b =>
        simp only at hacc
        by_cases hlt : startKeyLt b.start_date x.start_date = true
        · rw [if_pos hlt] at hacc
          cases hacc
          exact Or.inl (List.mem_cons_self x xs)
        · rw [if_neg hlt] at hacc
          exact Or.inr hacc

theorem latestStartRule_mem {rows : List RuleRow} {r : RuleRow}
    (h : latestStartRule rows = some r) : r ∈ rows := by
  unfold latestStartRule at h
  rcases latestStartRule_aux_mem rows none r h with hmem | hacc
  · exact hmem
  · cases hacc

theorem customer_get_by_id_congr {db db' : DB}
    (customer_id : Int) (h : db'.customers = db.customers) :
    CustomerRepository.get_by_id db' customer_id =
      CustomerRepository.get_by_id db customer_id := by
  unfold CustomerRepository.get_by_id
  rw [h]

theorem product_get_by_id_congr {db db' : DB} (product_id : Int)
    (hp : db'.products = db.products) (hc : db'.categories = db.categories) :
    ProductRepository.get_by_id db' product_id =
      ProductRepository.get_by_id db product_id := by
  unfold ProductRepository.get_by_id productCategoryRel
  rw [hp, hc]

theorem category_get_by_id_congr {db db' : DB}
    (category_id : Option Int) (hc : db'.categories = db.categories)
    (hr : db'.rules = db.rules) :
    CategoryRepository.get_by_id db' category_id =
      CategoryRepository.get_by_id db category_id := by
  unfold CategoryRepository.get_by_id
  rw [hc, hr]

theorem LoyaltyAccountRepository.update_preserves (db : DB)
    (a : LoyaltyAccount) :
    (LoyaltyAccountRepository.update db a).customers = db.customers ∧
    (LoyaltyAccountRepository.update db a).products = db.products ∧
    (LoyaltyAccountRepository.update db a).categories = db.categories ∧
    (LoyaltyAccountRepository.update db a).rules = db.rules ∧
    (LoyaltyAccountRepository.update db a).transactions = db.transactions := by
  unfold LoyaltyAccountRepository.update
  cases db.accounts.find? (fun r => r.id == a.id) <;> simp

theorem LoyaltyAccountRepository.get_by_customer_id_inv {db : DB}
    {customer_id : Int} {acct : LoyaltyAccount}
    (h : LoyaltyAccountRepository.get_by_customer_id db customer_id =
      some acct) :
    ∃ row, db.accounts.find? (fun r => r.customer_id == customer_id) =
        some row ∧
      row ∈ db.accounts ∧ row.id = acct.id ∧ row.points = acct.points ∧
      row.customer_id = customer_id := by
  unfold LoyaltyAccountRepository.get_by_customer_id at h
  cases hf : db.accounts.find? (fun r => r.customer_id == customer_id) with
  | none => rw [hf] at h; cases h
  | some row =>
    rw [hf] at h
    simp only [Option.some.injEq] at h
    have hmem := List.mem_of_find?_eq_some hf
    have hpred := List.find?_some hf
    simp only [beq_iff_eq] at hpred
    exact ⟨row, rfl, hmem, by rw [← h], by rw [← h], hpred⟩

theorem ProductRepository.get_by_id_inv {db : DB} {product_id : Int}
    {p : Product}
    (h : ProductRepository.get_by_id db product_id = .ok (some p)) :
    ∃ row ∈ db.products, p.price = row.price ∧
      p.category_id = row.category_id := by
  unfold ProductRepository.get_by_id at h
  cases hf : db.products.find? (fun r => r.id == product_id) with
  | none => rw [hf] at h; cases h
  | some row =>
    rw [hf] at h
    cases hrel : productCategoryRel db row with
    | none => simp only [hrel] at h; cases h
    | some catRow =>
      simp only [hrel, Except.ok.injEq, Option.some.injEq] at h
      exact ⟨row, List.mem_of_find?_eq_some hf, by rw [← h], by rw [← h]⟩

theorem CategoryRepository.get_by_id_rules_inv {db : DB}
    {category_id : Option Int} {c : Category}
    (h : CategoryRepository.get_by_id db category_id = some c) :
    ∀ rule ∈ c.point_earning_rules, ∃ rr ∈ db.rules,
      rule.points_per_dollar = rr.points_per_dollar := by
  unfold CategoryRepository.get_by_id at h
  cases category_id with
  | none => cases h
  | some cid =>
    cases hf : db.categories.find? (fun x => x.id == cid) with
    | none => simp only [hf] at h; cases h
    | some crow =>
      simp only [hf] at h
      cases hlr : latestStartRule
          (db.rules.filter (fun r => r.category_id == some crow.id)) with
      | none =>
        simp only [hlr, Option.some.injEq] at h
        intro rule hrule
        rw [← h] at hrule
        simp at hrule
      | some rr =>
        simp only [hlr, Option.some.injEq] at h
        intro rule hrule
        rw [← h] at hrule
        simp only [List.mem_singleton] at hrule
        subst hrule
        exact ⟨rr, (List.mem_filter.mp (latestStartRule_mem hlr)).1, rfl⟩

theorem calculate_points_nonneg (p : Product) (d : PyDate)
    (hrules : ∀ c, p.category = some c → ∀ r ∈ c.point_earning_rules,
      ∀ k, r.points_per_dollar = some k → 0 ≤ k)
    (hprice : ∀ cents, p.price = some cents → 0 ≤ cents) :
    0 ≤ PointCalculator.calculate_points p d := by
  unfold PointCalculator.calculate_points
  cases hc : p.category with
  | none => simp [hc]
  | some cat =>
    try simp only [hc]
    cases hr : cat.get_active_rule d with
    | none => simp [hr]
    | some rule =>
      try simp only [hr]
      cases hppd : rule.points_per_dollar with
      | none => simp [hppd]
      | some k =>
        try simp only [hppd]
        cases hpr : p.price with
        | none => simp [hpr]
        | some cents =>
          try simp only [hpr]
          try dsimp only
          split
          · exact Int.tdiv_nonneg
              (mul_nonneg (hprice cents hpr)
                (hrules cat hc rule (findActiveRule_mem hr) k hppd))
              (by norm_num)
          · exact le_refl (0 : Int)

theorem pp_structure :
    ∀ (ids : List Int) (db : DB) (acct : LoyaltyAccount) (today : PyDate)
      (r : ProcessResult),
    LoyaltyService.process_products db acct ids today = .ok r →
    r.db.customers = db.customers ∧ r.db.accounts = db.accounts ∧
    r.db.products = db.products ∧ r.db.categories = db.categories ∧
    r.db.rules = db.rules ∧
    r.db.transactions.length = db.transactions.length + r.events.length ∧
    r.account.id = acct.id ∧
    r.account.points = acct.points + r.total_points_earned ∧
    (∀ e ∈ r.events, e.isBalanceUpdate = false) := by
  intro ids
  induction ids with
  | nil =>
    intro db acct today r h
    simp only [LoyaltyService.process_products, Except.ok.injEq] at h
    subst h
    exact ⟨rfl, rfl, rfl, rfl, rfl, by simp, rfl, by simp, by simp⟩
  | cons pid rest ih =>
    intro db acct today r h
    rw [LoyaltyService.process_products] at h
    split at h
    · cases h
    · -- product not found: recurse, prepend to invalid_products
      split at h
      · cases h
      · rename_i r' hrec
        simp only [Except.ok.injEq] at h
        subst h
        simpa using ih db acct today r' hrec
    · -- product found
      dsimp only at h
      split at h
      · -- category not resolvable: recurse, prepend to the missing list
        split at h
        · cases h
        · rename_i r' hrec
          simp only [Except.ok.injEq] at h
          subst h
          simpa using ih db acct today r' hrec
      · -- category resolved
        split at h
        · -- zero points: recurse, prepend to the rules-missing list
          split at h
          · cases h
          · rename_i r' hrec
            simp only [Except.ok.injEq] at h
            subst h
            simpa using ih db acct today r' hrec
        · -- points earned: persist a transaction, add points, recurse
          split at h
          · cases h
          · rename_i r' hrec
            simp only [Except.ok.injEq] at h
            subst h
            obtain ⟨h1, h2, h3, h4, h5, hlen, hid, hpts, hev⟩ :=
              ih _ _ today r' hrec
            simp only [LoyaltyService.create_transaction,
              PointTransactionRepository.create, List.length_append,
              List.length_cons, List.length_nil,
              LoyaltyAccount.add_points] at h1 h2 h3 h4 h5 hlen hid hpts
            refine ⟨h1, h2, h3, h4, h5, by simp only [List.length_cons]; omega,
              hid, by dsimp only; omega, ?_⟩
            intro e he
            rcases List.mem_cons.mp he with rfl | he
            · rfl
            · exact hev e he

theorem pp_congr :
    ∀ (ids : List Int) (db db₂ : DB) (acct acct₂ : LoyaltyAccount)
      (today : PyDate),
    db₂.products = db.products → db₂.categories = db.categories →
    db₂.rules = db.rules → acct₂.id = acct.id →
    ∀ r, LoyaltyService.process_products db acct ids today = .ok r →
    ∃ r₂, LoyaltyService.process_products db₂ acct₂ ids today = .ok r₂ ∧
      r₂.total_points_earned = r.total_points_earned ∧
      r₂.invalid_products = r.invalid_products ∧
      r₂.products_missing_category = r.products_missing_category ∧
      r₂.point_earning_rules_missing = r.point_earning_rules_missing ∧
      r₂.events = r.events := by
  intro ids
  induction ids with
  | nil =>
    intro db db₂ acct acct₂ today hp hc hr hid r h
    simp only [LoyaltyService.process_products, Except.ok.injEq] at h
    subst h
    exact ⟨_, rfl, rfl, rfl, rfl, rfl, rfl⟩
  | cons pid rest ih =>
    intro db db₂ acct acct₂ today hp hc hr hid r h
    rw [LoyaltyService.process_products] at h ⊢
    rw [product_get_by_id_congr pid hp hc]
    cases hfetch : ProductRepository.get_by_id db pid with
    | error e => simp only [hfetch] at h; cases h
    | ok po =>
      simp only [hfetch] at h ⊢
      cases po with
      | none =>
        cases hrec : LoyaltyService.process_products db acct rest today with
        | error e => simp only [hrec] at h; cases h
        | ok r' =>
          simp only [hrec, Except.ok.injEq] at h
          subst h
          obtain ⟨r₂', hrec₂, f1, f2, f3, f4, f5⟩ :=
            ih db db₂ acct acct₂ today hp hc hr hid r' hrec
          exact ⟨{ r₂' with invalid_products := pid :: r₂'.invalid_products },
            by simp only [hrec₂], f1, by simp only [f2], f3, f4, f5⟩
      | some p0 =>
        dsimp only at h ⊢
        rw [category_get_by_id_congr p0.category_id hc hr]
        cases hcat : CategoryRepository.get_by_id db p0.category_id with
        | none =>
          simp only [hcat] at h ⊢
          cases hrec : LoyaltyService.process_products db acct rest today with
          | error e => simp only [hrec] at h; cases h
          | ok r' =>
            simp only [hrec, Except.ok.injEq] at h
            subst h
            obtain ⟨r₂', hrec₂, f1, f2, f3, f4, f5⟩ :=
              ih db db₂ acct acct₂ today hp hc hr hid r' hrec
            exact ⟨{ r₂' with products_missing_category :=
                pid :: r₂'.products_missing_category },
              by simp only [hrec₂], f1, f2, by simp only [f3], f4, f5⟩
        | some cat =>
          simp only [hcat] at h ⊢
          cases hpe : PointCalculator.calculate_points
              { p0 with category := some cat } today == 0 with
          | true =>
            simp only [hpe, if_true] at h ⊢
            cases hrec : LoyaltyService.process_products db acct rest today with
            | error e => simp only [hrec] at h; cases h
            | ok r' =>
              simp only [hrec, Except.ok.injEq] at h
              subst h
              obtain ⟨r₂', hrec₂, f1, f2, f3, f4, f5⟩ :=
                ih db db₂ acct acct₂ today hp hc hr hid r' hrec
              exact ⟨{ r₂' with point_earning_rules_missing :=
                  pid :: r₂'.point_earning_rules_missing },
                by simp only [hrec₂], f1, f2, f3, by simp only [f4], f5⟩
          | false =>
            simp only [hpe, Bool.false_eq_true, if_false] at h ⊢
            cases hrec : LoyaltyService.process_products
                (LoyaltyService.create_transaction db acct
                  { p0 with category := some cat }
                  (PointCalculator.calculate_points
                    { p0 with category := some cat } today) today)
                (acct.add_points (PointCalculator.calculate_points
                  { p0 with category := some cat } today)) rest today with
            | error e => simp only [hrec] at h; cases h
            | ok r' =>
              simp only [hrec, Except.ok.injEq] at h
              subst h
              obtain ⟨r₂', hrec₂, f1, f2, f3, f4, f5⟩ :=
                ih (LoyaltyService.create_transaction db acct
                      { p0 with category := some cat }
                      (PointCalculator.calculate_points
                        { p0 with category := some cat } today) today)
                   (LoyaltyService.create_transaction db₂ acct₂
                      { p0 with category := some cat }
                      (PointCalculator.calculate_points
                        { p0 with category := some cat } today) today)
                   (acct.add_points (PointCalculator.calculate_points
                      { p0 with category := some cat } today))
                   (acct₂.add_points (PointCalculator.calculate_points
                      { p0 with category := some cat } today))
                   today hp hc hr hid r' hrec
              refine ⟨{ r₂' with
                  total_points_earned :=
                    PointCalculator.calculate_points
                      { p0 with category := some cat } today +
                      r₂'.total_points_earned
                  events :=
                    .createTransaction acct₂.id
                      (Product.id { p0 with category := some cat })
                      (PointCalculator.calculate_points
                        { p0 with category := some cat } today) today ::
                      r₂'.events },
                by simp only [hrec₂], by simp only [f1], f2, f3, f4, ?_⟩
              simp only [f5, hid]

theorem pp_error_of_fetch_error :
    ∀ (ids : List Int) (db : DB) (acct : LoyaltyAccount) (today : PyDate)
      (pid : Int) (e : String),
    pid ∈ ids → ProductRepository.get_by_id db pid = .error e →
    ∃ e', LoyaltyService.process_products db acct ids today = .error e' := by
  intro ids
  induction ids with
  | nil => intro db acct today pid e hmem; cases hmem
  | cons x rest ih =>
    intro db acct today pid e hmem hfetch
    rw [LoyaltyService.process_products]
    rcases List.mem_cons.mp hmem with rfl | hmem'
    · exact ⟨e, by simp only [hfetch]⟩
    · cases hfetchx : ProductRepository.get_by_id db x with
      | error e0 => exact ⟨e0, by simp only [hfetchx]⟩
      | ok po =>
        cases po with
        | none =>
          obtain ⟨e', he'⟩ := ih db acct today pid e hmem' hfetch
          exact ⟨e', by simp only [hfetchx, he']⟩
        | some p0 =>
          cases hcat : CategoryRepository.get_by_id db p0.category_id with
          | none =>
            obtain ⟨e', he'⟩ := ih db acct today pid e hmem' hfetch
            exact ⟨e', by simp only [hfetchx, hcat, he']⟩
          | some cat =>
            cases hpe : PointCalculator.calculate_points
                { p0 with category := some cat } today == 0 with
            | true =>
              obtain ⟨e', he'⟩ := ih db acct today pid e hmem' hfetch
              exact ⟨e', by simp only [hfetchx, hcat, hpe, if_true, he']⟩
            | false =>
              obtain ⟨e', he'⟩ :=
                ih (LoyaltyService.create_transaction db acct
                      { p0 with category := some cat }
                      (PointCalculator.calculate_points
                        { p0 with category := some cat } today) today)
                   (acct.add_points (PointCalculator.calculate_points
                      { p0 with category := some cat } today))
                   today pid e hmem'
                   ((product_get_by_id_congr pid rfl rfl).trans
                     hfetch)
              exact ⟨e', by
                simp only [hfetchx, hcat, hpe, Bool.false_eq_true, if_false,
                  he']⟩

theorem pp_nonneg :
    ∀ (ids : List Int) (db : DB) (acct : LoyaltyAccount) (today : PyDate)
      (r : ProcessResult),
    (∀ rr ∈ db.rules, ∀ k, rr.points_per_dollar = some k → 0 ≤ k) →
    (∀ p ∈ db.products, ∀ cents, p.price = some cents → 0 ≤ cents) →
    LoyaltyService.process_products db acct ids today = .ok r →
    0 ≤ r.total_points_earned ∧
    (∀ aid pid pts dd,
      GatewayEvent.createTransaction aid pid pts dd ∈ r.events → 0 ≤ pts) := by
  intro ids
  induction ids with
  | nil =>
    intro db acct today r hrules hprices h
    simp only [LoyaltyService.process_products, Except.ok.injEq] at h
    subst h
    exact ⟨le_refl 0, by simp⟩
  | cons pid rest ih =>
    intro db acct today r hrules hprices h
    rw [LoyaltyService.process_products] at h
    cases hfetch : ProductRepository.get_by_id db pid with
    | error e => simp only [hfetch] at h; cases h
    | ok po =>
      simp only [hfetch] at h
      cases po with
      | none =>
        cases hrec : LoyaltyService.process_products db acct rest today with
        | error e => simp only [hrec] at h; cases h
        | ok r' =>
          simp only [hrec, Except.ok.injEq] at h
          subst h
          simpa using ih db acct today r' hrules hprices hrec
      | some p0 =>
        dsimp only at h
        cases hcat : CategoryRepository.get_by_id db p0.category_id with
        | none =>
          simp only [hcat] at h
          cases hrec : LoyaltyService.process_products db acct rest today with
          | error e => simp only [hrec] at h; cases h
          | ok r' =>
            simp only [hrec, Except.ok.injEq] at h
            subst h
            simpa using ih db acct today r' hrules hprices hrec
        | some cat =>
          simp only [hcat] at h
          have hpe_nonneg : 0 ≤ PointCalculator.calculate_points
              { p0 with category := some cat } today := by
            refine calculate_points_nonneg _ today ?_ ?_
            · intro c hcsome rule hrule k hk
              have hcc : cat = c := by
                simpa using hcsome
              subst hcc
              obtain ⟨rr, hrrmem, hrr⟩ :=
                CategoryRepository.get_by_id_rules_inv hcat rule hrule
              exact hrules rr hrrmem k (hrr ▸ hk)
            · intro cents hcents
              obtain ⟨row, hrowmem, hrowprice, -⟩ :=
                ProductRepository.get_by_id_inv hfetch
              have : row.price = some cents := by
                rw [← hrowprice]
                simpa using hcents
              exact hprices row hrowmem cents this
          cases hpe : PointCalculator.calculate_points
              { p0 with category := some cat } today == 0 with
          | true =>
            simp only [hpe, if_true] at h
            cases hrec : LoyaltyService.process_products db acct rest today with
            | error e => simp only [hrec] at h; cases h
            | ok r' =>
              simp only [hrec, Except.ok.injEq] at h
              subst h
              simpa using ih db acct today r' hrules hprices hrec
          | false =>
            simp only [hpe, Bool.false_eq_true, if_false] at h
            cases hrec : LoyaltyService.process_products
                (LoyaltyService.create_transaction db acct
                  { p0 with category := some cat }
                  (PointCalculator.calculate_points
                    { p0 with category := some cat } today) today)
                (acct.add_points (PointCalculator.calculate_points
                  { p0 with category := some cat } today)) rest today with
            | error e => simp only [hrec] at h; cases h
            | ok r' =>
              simp only [hrec, Except.ok.injEq] at h
              subst h
              obtain ⟨htot, hev⟩ :=
                ih (LoyaltyService.create_transaction db acct
                      { p0 with category := some cat }
                      (PointCalculator.calculate_points
                        { p0 with category := some cat } today) today)
                   (acct.add_points (PointCalculator.calculate_points
                      { p0 with category := some cat } today))
                   today r' hrules hprices hrec
              constructor
              · exact add_nonneg hpe_nonneg htot
              · intro aid pid' pts dd hm
                rcases List.mem_cons.mp hm with heq | hm'
                · simp only [GatewayEvent.createTransaction.injEq] at heq
                  obtain ⟨-, -, rfl, -⟩ := heq
                  exact hpe_nonneg
                · exact hev aid pid' pts dd hm'

theorem get_by_customer_id_after_update (db : DB) (a : LoyaltyAccount)
    (customer_id : Int) (row : AccountRow)
    (hfind : db.accounts.find? (fun r => r.customer_id == customer_id) =
      some row)
    (hrowid : row.id = a.id) :
    LoyaltyAccountRepository.get_by_customer_id
      (LoyaltyAccountRepository.update db a) customer_id =
      some { id := row.id, points := a.points } := by
  unfold LoyaltyAccountRepository.update
  have hsome : (db.accounts.find? (fun r => r.id == a.id)).isSome = true :=
    List.find?_isSome.mpr
      ⟨row, List.mem_of_find?_eq_some hfind, by simp [hrowid]⟩
  cases hf : db.accounts.find? (fun r => r.id == a.id) with
  | none => rw [hf] at hsome; simp at hsome
  | some row0 =>
    simp only [hf]
    unfold LoyaltyAccountRepository.get_by_customer_id
    dsimp only
    rw [List.find?_map]
    have hpred : ((fun r : AccountRow => r.customer_id == customer_id) ∘
        (fun r : AccountRow => if r.id == a.id then
          { r with points := a.points } else r)) =
        (fun r : AccountRow => r.customer_id == customer_id) := by
      funext x
      by_cases hx : (x.id == a.id) = true
      · simp [Function.comp, hx]
      · simp [Function.comp, hx]
    rw [hpred, hfind]
    simp [hrowid]

/-! ## Claim theorems -/

/-- Claim C3: for every category and date, Category.get_active_rule
scans the category's rules in stored order and returns the first rule
whose start date is unset or ≤ the date and whose end date is unset or
≥ the date (that is what `ruleActiveOn` states); it returns none
exactly when no rule matches — in particular when the category has no
rules — and when several rules' windows overlap the date the rule
appearing first in insertion order is returned (every earlier rule
fails the window test). -/
theorem C3_get_active_rule_first_match (c : Category) (d : PyDate) :
    (c.get_active_rule d = none ↔
      ∀ r ∈ c.point_earning_rules, ruleActiveOn r d = false) ∧
    (∀ r, c.get_active_rule d = some r →
      ruleActiveOn r d = true ∧
      ∃ l₁ l₂, c.point_earning_rules = l₁ ++ r :: l₂ ∧
        ∀ r' ∈ l₁, ruleActiveOn r' d = false) := by
  constructor
  · exact findActiveRule_eq_none
  · intro r h
    exact findActiveRule_some h

/-- Witness for C3 at a category with two rules whose windows both
contain day 6: the resolver returns the first-inserted one, and the
theorem yields its window test. -/
theorem C3_get_active_rule_first_match_witness :
    ruleActiveOn ruleOv1 6 = true ∧
    catOverlap.get_active_rule 6 = some ruleOv1 :=
  ⟨((C3_get_active_rule_first_match catOverlap 6).2 ruleOv1 (by decide)).1,
   by decide⟩

/-- Claim C2 counterexample: the 15.99 product whose active rule has a
present, nonzero points-per-dollar of -1 falls in the claim's
"otherwise" case, yet the code returns int(15.99 · -1) = -15 — a
negative number, and not floor(15.99 · -1) = -16 — so the result is
neither non-negative nor the floor the claim requires. -/
theorem C2_counterexample :
    PointCalculator.calculate_points bookNegRule 0 = -15 ∧
    PointCalculator.calculate_points bookNegRule 0 < 0 ∧
    ⌊(1599 : ℚ) / 100 * (-1)⌋ = -16 := by
  refine ⟨by decide, by decide, ?_⟩
  rw [show (1599 : ℚ) / 100 * (-1) =
    ((-1599 : Int) : ℚ) / ((100 : ℕ) : ℚ) by norm_num]
  rw [Rat.floor_intCast_div_natCast]
  decide

/-- Claim C2 (amended): for every product and date the Point Calculator
returns 0 when the product has no attached category, when no rule is
active, when the rule's points-per-dollar is unset or zero, or when the
product's price is unset; and — restricted to a positive multiplier,
which the counterexample shows is necessary (a negative multiplier
yields a negative, toward-zero-truncated result) — it returns the
non-negative floor(price · points_per_dollar) computed in exact decimal
arithmetic (price = cents/100).  The function is total, so it never
raises for missing optional fields. -/
theorem C2_calculate_points_amended (p : Product) (d : PyDate) :
    (p.category = none → PointCalculator.calculate_points p d = 0) ∧
    (∀ cat, p.category = some cat → cat.get_active_rule d = none →
      PointCalculator.calculate_points p d = 0) ∧
    (∀ cat rule, p.category = some cat → cat.get_active_rule d = some rule →
      (rule.points_per_dollar = none ∨ rule.points_per_dollar = some 0) →
      PointCalculator.calculate_points p d = 0) ∧
    (∀ cat rule, p.category = some cat → cat.get_active_rule d = some rule →
      p.price = none → PointCalculator.calculate_points p d = 0) ∧
    (∀ cat rule k cents, p.category = some cat →
      cat.get_active_rule d = some rule →
      rule.points_per_dollar = some k → p.price = some cents →
      0 < k → 0 ≤ cents →
      PointCalculator.calculate_points p d = ⌊(cents : ℚ) / 100 * k⌋ ∧
      0 ≤ PointCalculator.calculate_points p d) := by
  refine ⟨?_, ?_, ?_, ?_, ?_⟩
  · intro hc
    unfold PointCalculator.calculate_points
    simp [hc]
  · intro cat hc hrule
    unfold PointCalculator.calculate_points
    simp [hc, hrule]
  · intro cat rule hc hrule hppd
    unfold PointCalculator.calculate_points
    simp only [hc, hrule]
    rcases hppd with hppd | hppd
    · simp [hppd]
    · cases hpr : p.price with
      | none => simp [hppd, hpr]
      | some cents => simp [hppd, hpr]
  · intro cat rule hc hrule hpr
    unfold PointCalculator.calculate_points
    simp only [hc, hrule]
    cases hppd : rule.points_per_dollar with
    | none => simp [hppd, hpr]
    | some k => simp [hppd, hpr]
  · intro cat rule k cents hc hrule hppd hpr hk hcents
    unfold PointCalculator.calculate_points
    simp only [hc, hrule, hppd, hpr]
    have hk0 : k ≠ 0 := ne_of_gt hk
    by_cases hc0 : cents = 0
    · subst hc0
      constructor
      · simp
      · simp
    · rw [if_pos ⟨hk0, hc0⟩]
      constructor
      · rw [Int.tdiv_eq_ediv (mul_nonneg hcents (le_of_lt hk)) (by norm_num)]
        rw [show (cents : ℚ) / 100 * k =
          ((cents * k : Int) : ℚ) / ((100 : ℕ) : ℚ) by push_cast; ring]
        rw [Rat.floor_intCast_div_natCast]
        norm_num
      · exact Int.tdiv_nonneg (mul_nonneg hcents (le_of_lt hk)) (by norm_num)

/-- Witness for C2's amended main case at the 15.99 product with
multiplier 1: the code returns ⌊15.99⌋ = 15 — the truncation example of
the claim — and the value is non-negative. -/
theorem C2_calculate_points_amended_witness :
    (PointCalculator.calculate_points bookPosRule 10 =
        ⌊(1599 : ℚ) / 100 * 1⌋ ∧
      0 ≤ PointCalculator.calculate_points bookPosRule 10) ∧
    PointCalculator.calculate_points bookPosRule 10 = 15 :=
  ⟨(C2_calculate_points_amended bookPosRule 10).2.2.2.2
      { id := some 2, name := some "Books"
        point_earning_rules :=
          [{ id := 3, points_per_dollar := some 1
             start_date := none, end_date := none }] }
      { id := 3, points_per_dollar := some 1
        start_date := none, end_date := none }
      1 1599 (by rfl) (by decide) (by rfl) (by rfl) (by norm_num)
      (by norm_num),
   by decide⟩

/-- Claim C4 counterexample: in `dbOverlap` both stored rules of
category 1 have windows containing day 6 and rule 1 was inserted first,
so the §4.1 policy picks rule 1; but end to end
(CategoryRepository.get_by_id followed by Category.get_active_rule) the
settlement uses rule 2 — the rule with the later start date — because
the repository attaches only the ORDER BY start_date DESC first row.
Hence the rule actually used is not the earliest-inserted active one. -/
theorem C4_counterexample :
    dbOverlap.rules.map (fun r => rowActiveOn r 6) = [true, true] ∧
    (specFirstInsertedActiveRule dbOverlap 1 6).map RuleRow.id = some 1 ∧
    (ruleUsedBySettlement dbOverlap 1 6).map PointEarningRule.id = some 2 ∧
    ruleUsedBySettlement dbOverlap 1 6 ≠
      (specFirstInsertedActiveRule dbOverlap 1 6).map
        (fun rr => { id := rr.id
                     points_per_dollar := rr.points_per_dollar
                     start_date := rr.start_date
                     end_date := rr.end_date }) :=
  ⟨by decide, by decide, by decide, by decide⟩

/-- Claim C4 (amended): end to end, get_category attaches at most one
rule: the stored rule of the category with the greatest start date
(NULL keys sort last under ORDER BY start_date DESC; the first such row
wins ties), so the rule used by checkout settlement for that category
on a date is that single rule when its window contains the date, and no
rule otherwise.  The §4.1 first-inserted tie-break therefore holds only
among the attached rules (a one-element list), not end to end over the
stored rules. -/
theorem C4_rule_used_amended (db : DB) (category_id : Int) (d : PyDate)
    (c : CategoryRow)
    (hc : db.categories.find? (fun x => x.id == category_id) = some c) :
    ruleUsedBySettlement db category_id d =
      match latestStartRule (db.rules.filter
          (fun r => r.category_id == some c.id)) with
      | none => none
      | some rr =>
        if rowActiveOn rr d then
          some { id := rr.id
                 points_per_dollar := rr.points_per_dollar
                 start_date := rr.start_date
                 end_date := rr.end_date }
        else none := by
  unfold ruleUsedBySettlement CategoryRepository.get_by_id
  simp only [hc]
  cases hlr : latestStartRule (db.rules.filter
      (fun r => r.category_id == some c.id)) with
  | none => simp [Category.get_active_rule, findActiveRule]
  | some rr =>
    simp only [hlr]
    simp only [Category.get_active_rule, findActiveRule, ruleActiveOn,
      rowActiveOn]

/-- Witness for C4's amended statement at the overlap fixture: the
repository path yields the later-start rule 2. -/
theorem C4_rule_used_amended_witness :
    ruleUsedBySettlement dbOverlap 1 6 = some ruleOv2 :=
  (C4_rule_used_amended dbOverlap 1 6
    { id := 1, name := some "Electronics" } (by decide)).trans (by decide)

/-- Claim C5: a settlement whose customer does not exist returns the
customer-not-found outcome, and one whose customer exists but has no
loyalty account returns the account-not-found outcome; in both cases
the session is returned unchanged (zero transaction rows created, zero
balance writes) and no gateway write is invoked. -/
theorem C5_not_found_no_mutation (db : DB) (customer_id : Int)
    (product_ids : List Int) (today : PyDate) :
    (CustomerRepository.get_by_id db customer_id = none →
      LoyaltyService.process_checkout db customer_id product_ids today =
        .ok (.customerNotFound, db, [])) ∧
    (∀ c, CustomerRepository.get_by_id db customer_id = some c →
      LoyaltyAccountRepository.get_by_customer_id db customer_id = none →
      LoyaltyService.process_checkout db customer_id product_ids today =
        .ok (.accountNotFound, db, [])) := by
  constructor
  · intro h
    unfold LoyaltyService.process_checkout
    simp [h]
  · intro c hc ha
    unfold LoyaltyService.process_checkout
    simp [hc, ha]

/-- Witness for C5: an empty session yields customer-not-found, a
session with customer 1 but no account yields account-not-found, both
with the session unchanged and no gateway writes. -/
theorem C5_not_found_no_mutation_witness :
    LoyaltyService.process_checkout dbEmpty 1 [103] 0 =
      .ok (.customerNotFound, dbEmpty, []) ∧
    LoyaltyService.process_checkout dbNoAccount 1 [103] 0 =
      .ok (.accountNotFound, dbNoAccount, []) :=
  ⟨(C5_not_found_no_mutation dbEmpty 1 [103] 0).1 (by decide),
   (C5_not_found_no_mutation dbNoAccount 1 [103] 0).2
     { id := 1, name := none, email := none } (by decide) (by decide)⟩

/-- Claim C1, evaluated at the spec's own example: on `dbMain`, product
101 is unknown, 102 "has no category" (NULL category_id), and 103 costs
1200.00 under an active points_per_dollar-2 rule.  The claim requires
total 2400 with 102 recorded in products_missing_category; the code
instead raises AttributeError inside ProductRepository.get_by_id when
it reaches 102 (`product_model.category` is None), so the whole
settlement fails and nothing is classified.  With 102 removed, the
remaining pipeline behaves exactly as claimed: total 2400,
invalid_products [101], one transaction, balance 100 → 2500. -/
theorem C1_settlement_example_divergence :
    LoyaltyService.process_checkout dbMain 1 [101, 102, 103] 0 =
      .error "AttributeError" ∧
    LoyaltyService.process_checkout dbMain 1 [101, 103] 0 =
      .ok (.settled
            { total_points_earned := 2400
              invalid_products := [101]
              products_missing_category := []
              point_earning_rules_missing := [] },
        dbMainSettled,
        [.createTransaction 1 103 2400 0, .updateBalance 1 2500]) :=
  ⟨rfl, rfl⟩

/-- Claim C9: when a stored product's category reference does not
resolve (NULL category_id, or a dangling one), ProductRepository's
get_by_id raises AttributeError instead of returning the product, and
any settlement that passes the customer and account preconditions and
lists that product id fails as a whole — no per-product classification
happens. -/
theorem C9_unresolvable_category_raises (db : DB) (product_id : Int)
    (row : ProductRow)
    (hrow : db.products.find? (fun r => r.id == product_id) = some row)
    (hcat : productCategoryRel db row = none) :
    ProductRepository.get_by_id db product_id = .error "AttributeError" ∧
    (∀ customer_id ids today, product_id ∈ ids →
      (CustomerRepository.get_by_id db customer_id).isSome = true →
      (LoyaltyAccountRepository.get_by_customer_id db
        customer_id).isSome = true →
      ∃ e, LoyaltyService.process_checkout db customer_id ids today =
        .error e) := by
  have hfetch : ProductRepository.get_by_id db product_id =
      .error "AttributeError" := by
    unfold ProductRepository.get_by_id
    simp [hrow, hcat]
  refine ⟨hfetch, ?_⟩
  intro customer_id ids today hmem hcust hacct
  unfold LoyaltyService.process_checkout
  cases hc : CustomerRepository.get_by_id db customer_id with
  | none => rw [hc] at hcust; simp at hcust
  | some c =>
    simp only [hc]
    cases ha : LoyaltyAccountRepository.get_by_customer_id db
        customer_id with
    | none => rw [ha] at hacct; simp at hacct
    | some acct =>
      simp only [ha]
      obtain ⟨e', he'⟩ :=
        pp_error_of_fetch_error ids db acct today product_id _ hmem hfetch
      exact ⟨e', by simp only [he']⟩

/-- Witness for C9 at `dbMain`: product 102 has a NULL category_id, its
fetch raises, and the settlement [102] against customer 1 errors. -/
theorem C9_unresolvable_category_raises_witness :
    ProductRepository.get_by_id dbMain 102 = .error "AttributeError" ∧
    ∃ e, LoyaltyService.process_checkout dbMain 1 [102] 0 = .error e := by
  have h := C9_unresolvable_category_raises dbMain 102
    { id := 102, name := some "Science Fiction Book", price := some 1500
      category_id := none, image_url := none } (by decide) (by decide)
  exact ⟨h.1, h.2 1 [102] 0 (by decide) (by decide) (by decide)⟩

/-- Claim C10: the Persistence Gateway's balance update is a silent
no-op when the account's id has no row (it writes nothing and raises
nothing), and a settlement's 200 outcome and totals are computed
independently of what the final update call persisted — so a settlement
whose account row were absent at update time would still report success
with its (possibly nonzero) total while the balance was never
persisted.  (Within this codebase the row always exists at update time,
because the same session just read it.) -/
theorem C10_silent_noop_update (db : DB) (acct : LoyaltyAccount) :
    (db.accounts.find? (fun r => r.id == acct.id) = none →
      LoyaltyAccountRepository.update db acct = db) ∧
    (∀ customer_id ids today c a r,
      CustomerRepository.get_by_id db customer_id = some c →
      LoyaltyAccountRepository.get_by_customer_id db customer_id = some a →
      LoyaltyService.process_products db a ids today = .ok r →
      LoyaltyService.process_checkout db customer_id ids today =
        .ok (.settled
              { total_points_earned := r.total_points_earned
                invalid_products := r.invalid_products
                products_missing_category := r.products_missing_category
                point_earning_rules_missing :=
                  r.point_earning_rules_missing },
          LoyaltyAccountRepository.update r.db r.account,
          r.events ++
            [.updateBalance r.account.id r.account.points])) := by
  constructor
  · intro h
    unfold LoyaltyAccountRepository.update
    simp [h]
  · intro customer_id ids today c a r hc ha hp
    unfold LoyaltyService.process_checkout
    simp [hc, ha, hp]

/-- Witness for C10: updating `dbMain` for an account id 99 with no row
changes nothing; and the settlement of [103] returns 200 with its total
as the theorem's shape states. -/
theorem C10_silent_noop_update_witness :
    LoyaltyAccountRepository.update dbMain { id := 99, points := 7 } =
      dbMain ∧
    LoyaltyService.process_checkout dbMain 1 [103] 0 =
      .ok (.settled
            { total_points_earned := 2400
              invalid_products := []
              products_missing_category := []
              point_earning_rules_missing := [] },
        LoyaltyAccountRepository.update dbMainTx { id := 1, points := 2500 },
        [.createTransaction 1 103 2400 0, .updateBalance 1 2500]) :=
  ⟨(C10_silent_noop_update dbMain { id := 99, points := 7 }).1 (by decide),
   (C10_silent_noop_update dbMain { id := 99, points := 7 }).2 1 [103] 0
     { id := 1, name := some "John Doe", email := none }
     { id := 1, points := 100 }
     { total_points_earned := 2400
       invalid_products := []
       products_missing_category := []
       point_earning_rules_missing := []
       account := { id := 1, points := 2500 }
       db := dbMainTx
       events := [.createTransaction 1 103 2400 0] }
     (by decide) (by decide) rfl⟩

/-- Claim C6 counterexample: the settlement of [102] on `dbMain` passes
both preconditions — customer 1 and its account exist — yet the
balance-update operation is invoked ZERO times: the per-product phase
raises AttributeError at product 102 (unresolvable category reference),
the whole call aborts before reaching the update call site, and no 200
outcome or gateway-event trace is produced.  So "never zero times" does
not hold for every precondition-passing settlement. -/
theorem C6_counterexample :
    CustomerRepository.get_by_id dbMain 1 =
      some { id := 1, name := some "John Doe", email := none } ∧
    LoyaltyAccountRepository.get_by_customer_id dbMain 1 =
      some { id := 1, points := 100 } ∧
    LoyaltyService.process_checkout dbMain 1 [102] 0 =
      .error "AttributeError" :=
  ⟨by decide, by decide, rfl⟩

/-- Claim C6 (amended): for every settlement that passes the customer
and account preconditions AND whose per-product phase completes without
an escaping AttributeError — the restriction the counterexample shows
is necessary — the gateway's balance-update operation is invoked
exactly once, and that single invocation is the last gateway write:
after every per-product transaction write, never once per product. -/
theorem C6_single_balance_update (db : DB) (customer_id : Int)
    (ids : List Int) (today : PyDate) (c : Customer)
    (acct : LoyaltyAccount) (r : ProcessResult)
    (hc : CustomerRepository.get_by_id db customer_id = some c)
    (ha : LoyaltyAccountRepository.get_by_customer_id db customer_id =
      some acct)
    (hp : LoyaltyService.process_products db acct ids today = .ok r) :
    ∃ ev : List GatewayEvent,
      LoyaltyService.process_checkout db customer_id ids today =
        .ok (.settled
              { total_points_earned := r.total_points_earned
                invalid_products := r.invalid_products
                products_missing_category := r.products_missing_category
                point_earning_rules_missing :=
                  r.point_earning_rules_missing },
          LoyaltyAccountRepository.update r.db r.account, ev) ∧
      (ev.filter GatewayEvent.isBalanceUpdate).length = 1 ∧
      ev.getLast? = some (.updateBalance r.account.id r.account.points) ∧
      ev.dropLast.all (fun e => !e.isBalanceUpdate) = true := by
  obtain ⟨-, -, -, -, -, -, -, -, hev⟩ := pp_structure ids db acct today r hp
  refine ⟨r.events ++ [.updateBalance r.account.id r.account.points],
    ?_, ?_, ?_, ?_⟩
  · unfold LoyaltyService.process_checkout
    simp [hc, ha, hp]
  · rw [List.filter_append]
    have hnil : r.events.filter GatewayEvent.isBalanceUpdate = [] := by
      rw [List.filter_eq_nil_iff]
      intro a hal
      simp [hev a hal]
    rw [hnil]
    simp [GatewayEvent.isBalanceUpdate]
  · exact List.getLast?_concat _
  · rw [List.dropLast_concat, List.all_eq_true]
    intro e he
    simp [hev e he]

/-- Witness for C6 at `dbMain` settling [103]: exactly one balance
update, emitted last. -/
theorem C6_single_balance_update_witness :
    ∃ ev : List GatewayEvent,
      LoyaltyService.process_checkout dbMain 1 [103] 0 =
        .ok (.settled
              { total_points_earned := 2400
                invalid_products := []
                products_missing_category := []
                point_earning_rules_missing := [] },
          LoyaltyAccountRepository.update dbMainTx
            { id := 1, points := 2500 }, ev) ∧
      (ev.filter GatewayEvent.isBalanceUpdate).length = 1 ∧
      ev.getLast? = some (.updateBalance 1 2500) ∧
      ev.dropLast.all (fun e => !e.isBalanceUpdate) = true :=
  C6_single_balance_update dbMain 1 [103] 0
    { id := 1, name := some "John Doe", email := none }
    { id := 1, points := 100 }
    { total_points_earned := 2400
      invalid_products := []
      products_missing_category := []
      point_earning_rules_missing := []
      account := { id := 1, points := 2500 }
      db := dbMainTx
      events := [.createTransaction 1 103 2400 0] }
    (by decide) (by decide) rfl

/-- Claim C7 counterexample: with a stored rule whose points-per-dollar
is -1 (an `int` column the code never sign-checks) and a 1.00 product,
the settlement's per-product amount is -1, the claim's "non-negative
integer" clause fails, and the account balance is decremented from 0 to
-1 — below zero, and below its initial value. -/
theorem C7_counterexample :
    LoyaltyService.process_checkout dbNegMultiplier 1 [5] 0 =
      .ok (.settled
            { total_points_earned := -1
              invalid_products := []
              products_missing_category := []
              point_earning_rules_missing := [] },
        dbNegSettled,
        [.createTransaction 1 5 (-1) 0, .updateBalance 1 (-1)]) ∧
    dbNegMultiplier.accounts.map AccountRow.points = [0] ∧
    dbNegSettled.accounts.map AccountRow.points = [-1] :=
  ⟨rfl, by decide, by decide⟩

/-- Claim C7 (amended): provided every stored rule's points-per-dollar
and every stored product's price is non-negative — the restriction the
counterexample shows is necessary — every settlement only ever adds
non-negative per-product point amounts (all transaction writes carry
pts ≥ 0), and every account row's final balance is ≥ the balance of a
same-id row of the initial session: the balance is never decremented,
in particular never below zero from a non-negative start. -/
theorem C7_balance_never_decreased_amended (db : DB) (customer_id : Int)
    (ids : List Int) (today : PyDate) (out : CheckoutOutcome) (db' : DB)
    (ev : List GatewayEvent)
    (hrules : ∀ rr ∈ db.rules, ∀ k, rr.points_per_dollar = some k → 0 ≤ k)
    (hprices : ∀ p ∈ db.products, ∀ cents, p.price = some cents → 0 ≤ cents)
    (h : LoyaltyService.process_checkout db customer_id ids today =
      .ok (out, db', ev)) :
    (∀ a' ∈ db'.accounts, ∃ a ∈ db.accounts, a.id = a'.id ∧
      a.points ≤ a'.points) ∧
    (∀ aid pid pts dd,
      GatewayEvent.createTransaction aid pid pts dd ∈ ev → 0 ≤ pts) := by
  unfold LoyaltyService.process_checkout at h
  cases hc : CustomerRepository.get_by_id db customer_id with
  | none =>
    simp only [hc, Except.ok.injEq, Prod.mk.injEq] at h
    obtain ⟨-, hdb, hev⟩ := h
    subst hdb
    subst hev
    exact ⟨fun a' ha' => ⟨a', ha', rfl, le_refl _⟩, by simp⟩
  | some c =>
    simp only [hc] at h
    cases ha : LoyaltyAccountRepository.get_by_customer_id db
        customer_id with
    | none =>
      simp only [ha, Except.ok.injEq, Prod.mk.injEq] at h
      obtain ⟨-, hdb, hev⟩ := h
      subst hdb
      subst hev
      exact ⟨fun a' ha' => ⟨a', ha', rfl, le_refl _⟩, by simp⟩
    | some acct =>
      simp only [ha] at h
      cases hp : LoyaltyService.process_products db acct ids today with
      | error e => simp only [hp] at h; cases h
      | ok r =>
        simp only [hp, Except.ok.injEq, Prod.mk.injEq] at h
        obtain ⟨-, hdb, hev⟩ := h
        subst hdb
        subst hev
        obtain ⟨-, hacc, -, -, -, -, hid, hpts, -⟩ :=
          pp_structure ids db acct today r hp
        obtain ⟨htot, hevn⟩ :=
          pp_nonneg ids db acct today r hrules hprices hp
        obtain ⟨row, hfindrow, hrowmem, hrowid, hrowpts, -⟩ :=
          LoyaltyAccountRepository.get_by_customer_id_inv ha
        constructor
        · intro a' ha'
          unfold LoyaltyAccountRepository.update at ha'
          cases hf : r.db.accounts.find?
              (fun x => x.id == r.account.id) with
          | none =>
            simp only [hf] at ha'
            rw [hacc] at ha'
            exact ⟨a', ha', rfl, le_refl _⟩
          | some row0 =>
            simp only [hf] at ha'
            rw [hacc] at ha'
            obtain ⟨a0, ha0mem, ha0eq⟩ := List.mem_map.mp ha'
            by_cases hida : (a0.id == r.account.id) = true
            · rw [if_pos hida] at ha0eq
              subst ha0eq
              refine ⟨row, hrowmem, ?_, ?_⟩
              · simp only [beq_iff_eq] at hida
                dsimp only
                rw [hrowid, ← hid, ← hida]
              · dsimp only
                rw [hrowpts, hpts]
                omega
            · rw [if_neg hida] at ha0eq
              subst ha0eq
              exact ⟨a0, ha0mem, rfl, le_refl _⟩
        · intro aid pid pts dd hm
          rcases List.mem_append.mp hm with hm' | hm'
          · exact hevn aid pid pts dd hm'
          · simp at hm'

/-- Witness for C7's amended statement at `dbMain` settling [101, 103]
(multiplier 2 and non-negative prices): the only account row goes from
100 to 2500 and the single transaction write carries 2400 ≥ 0. -/
theorem C7_balance_never_decreased_amended_witness :
    (∀ a' ∈ dbMainSettled.accounts, ∃ a ∈ dbMain.accounts,
      a.id = a'.id ∧ a.points ≤ a'.points) ∧
    (∀ aid pid pts dd,
      GatewayEvent.createTransaction aid pid pts dd ∈
        [GatewayEvent.createTransaction 1 103 2400 0,
         GatewayEvent.updateBalance 1 2500] → 0 ≤ pts) :=
  C7_balance_never_decreased_amended dbMain 1 [101, 103] 0
    (.settled
      { total_points_earned := 2400
        invalid_products := [101]
        products_missing_category := []
        point_earning_rules_missing := [] })
    dbMainSettled
    [.createTransaction 1 103 2400 0, .updateBalance 1 2500]
    (by
      intro rr hrr k hk
      simp only [dbMain, List.mem_singleton] at hrr
      subst hrr
      simp only [Option.some.injEq] at hk
      omega)
    (by
      intro p hp cents hc
      simp only [dbMain, List.mem_cons, List.mem_singleton,
        List.not_mem_nil, or_false] at hp
      rcases hp with rfl | rfl <;>
        simp only [Option.some.injEq] at hc <;> omega)
    rfl

/-- Claim C8: settlement is not idempotent.  If a settlement for a
customer succeeds with response `resp` (total T > 0, having created K
transaction rows), then running the same settlement again against the
resulting session succeeds with the SAME response — the catalog data is
untouched — so the two runs together create 2·K transaction rows and
leave the account at its original balance plus 2·T. -/
theorem C8_settle_twice_doubles (db : DB) (customer_id : Int)
    (ids : List Int) (today : PyDate) (acct : LoyaltyAccount)
    (resp : ResponseData) (db₁ : DB) (ev₁ : List GatewayEvent)
    (hacct : LoyaltyAccountRepository.get_by_customer_id db customer_id =
      some acct)
    (h₁ : LoyaltyService.process_checkout db customer_id ids today =
      .ok (.settled resp, db₁, ev₁))
    (hT : 0 < resp.total_points_earned) :
    ∃ db₂ ev₂,
      LoyaltyService.process_checkout db₁ customer_id ids today =
        .ok (.settled resp, db₂, ev₂) ∧
      db₂.transactions.length = db.transactions.length +
        2 * (db₁.transactions.length - db.transactions.length) ∧
      LoyaltyAccountRepository.get_by_customer_id db₂ customer_id =
        some { id := acct.id
               points := acct.points + 2 * resp.total_points_earned } := by
  unfold LoyaltyService.process_checkout at h₁
  cases hc : CustomerRepository.get_by_id db customer_id with
  | none => simp [hc] at h₁
  | some c =>
    simp only [hc, hacct] at h₁
    cases hp : LoyaltyService.process_products db acct ids today with
    | error e => simp only [hp] at h₁; cases h₁
    | ok r =>
      simp only [hp, Except.ok.injEq, Prod.mk.injEq,
        CheckoutOutcome.settled.injEq] at h₁
      obtain ⟨hresp, hdb₁, hev₁⟩ := h₁
      subst hresp
      subst hdb₁
      subst hev₁
      obtain ⟨hcust_p, hacc_p, hprod_p, hcat_p, hrul_p, hlen, hid,
        hpts, -⟩ := pp_structure ids db acct today r hp
      obtain ⟨row, hfindrow, hrowmem, hrowid, hrowpts, -⟩ :=
        LoyaltyAccountRepository.get_by_customer_id_inv hacct
      obtain ⟨hu1, hu2, hu3, hu4, hu5⟩ :=
        LoyaltyAccountRepository.update_preserves r.db r.account
      have hc₂ : CustomerRepository.get_by_id
          (LoyaltyAccountRepository.update r.db r.account) customer_id =
          some c := by
        rw [customer_get_by_id_congr customer_id
          (hu1.trans hcust_p)]
        exact hc
      have ha₂ : LoyaltyAccountRepository.get_by_customer_id
          (LoyaltyAccountRepository.update r.db r.account) customer_id =
          some { id := row.id, points := r.account.points } := by
        apply get_by_customer_id_after_update r.db r.account customer_id row
        · rw [hacc_p]
          exact hfindrow
        · rw [hrowid, ← hid]
      obtain ⟨r₂, hp₂, g1, g2, g3, g4, g5⟩ :=
        pp_congr ids db (LoyaltyAccountRepository.update r.db r.account)
          acct { id := row.id, points := r.account.points } today
          (hu2.trans hprod_p) (hu3.trans hcat_p) (hu4.trans hrul_p)
          hrowid r hp
      obtain ⟨-, hacc₂p, -, -, -, hlen₂, hid₂, hpts₂, -⟩ :=
        pp_structure ids (LoyaltyAccountRepository.update r.db r.account)
          { id := row.id, points := r.account.points } today r₂ hp₂
      obtain ⟨row₂, hfindrow₂, -, hrowid₂, -, -⟩ :=
        LoyaltyAccountRepository.get_by_customer_id_inv ha₂
      obtain ⟨hv1, hv2, hv3, hv4, hv5⟩ :=
        LoyaltyAccountRepository.update_preserves r₂.db r₂.account
      refine ⟨LoyaltyAccountRepository.update r₂.db r₂.account,
        r₂.events ++
          [.updateBalance r₂.account.id r₂.account.points], ?_, ?_, ?_⟩
      · unfold LoyaltyService.process_checkout
        simp only [hc₂, ha₂, hp₂]
        rw [g1, g2, g3, g4]
      · have e1 : (LoyaltyAccountRepository.update
            r.db r.account).transactions.length =
            db.transactions.length + r.events.length := by
          rw [hu5, hlen]
        have e2 : (LoyaltyAccountRepository.update
            r₂.db r₂.account).transactions.length =
            (LoyaltyAccountRepository.update
              r.db r.account).transactions.length + r.events.length := by
          rw [hv5, hlen₂, g5]
        omega
      · have hfin := get_by_customer_id_after_update r₂.db r₂.account
          customer_id row₂ (by rw [hacc₂p]; exact hfindrow₂)
          (by rw [hrowid₂]; exact hid₂.symm)
        rw [hfin, Option.some.injEq, LoyaltyAccount.mk.injEq]
        constructor
        · rw [hrowid₂, hrowid]
        · have p1 : r₂.account.points =
              r.account.points + r₂.total_points_earned := hpts₂
          have p2 : r.account.points =
              acct.points + r.total_points_earned := hpts
          have p3 : r₂.total_points_earned = r.total_points_earned := g1
          show r₂.account.points =
            acct.points + 2 * r.total_points_earned
          omega

/-- Witness for C8: settle [103] on `dbMain` (T = 2400, K = 1), then
settle again on the resulting session: same response, 2 transaction
rows in total, and the balance reaches 100 + 2·2400. -/
theorem C8_settle_twice_doubles_witness :
    ∃ db₂ ev₂,
      LoyaltyService.process_checkout dbMainSettled 1 [103] 0 =
        .ok (.settled
              { total_points_earned := 2400
                invalid_products := []
                products_missing_category := []
                point_earning_rules_missing := [] }, db₂, ev₂) ∧
      db₂.transactions.length = dbMain.transactions.length +
        2 * (dbMainSettled.transactions.length -
          dbMain.transactions.length) ∧
      LoyaltyAccountRepository.get_by_customer_id db₂ 1 =
        some { id := 1, points := 100 + 2 * 2400 } :=
  C8_settle_twice_doubles dbMain 1 [103] 0 { id := 1, points := 100 }
    { total_points_earned := 2400
      invalid_products := []
      products_missing_category := []
      point_earning_rules_missing := [] }
    dbMainSettled
    [.createTransaction 1 103 2400 0, .updateBalance 1 2500]
    (by decide) rfl (by decide)
